import Mathlib

/-!
Shallow embedding of the scavenger-hunt client (`src/app/index.tsx`).

The component keeps seven pieces of React state (`hasPermission`, `scanned`,
`showCamera`, `questionData`, `loading`, `selectedAnswer`, `showResult`); we
collect them in `AppState`.  Each event handler of the component becomes a pure
function `AppState → AppState × List Effect`, where `Effect` records the
observable side effects the handler performs (alerts shown, HTTP requests
issued).  The asynchronous `fetchQuestionData` is split at its suspension
point: `fetchQuestionStart` is the synchronous part up to the `fetch` call and
`fetchQuestionComplete` is the continuation, applied to either the parsed JSON
payload (`some data`) or `none` for a transport/JSON-decode failure (the
`catch` branch).

JSON payloads are modelled by `QuestionData` with every field optional: the
TypeScript type annotation declares `question` required, but `response.json()`
performs no runtime validation, so any shape can reach the state.  For the
same reason a `choices` entry — and hence the selected answer — need not be a
string at runtime; `JsVal` keeps the string case and collapses every
non-string value to its JS truthiness, which is all `submitAnswer` can observe
of it: a truthy non-string selection passes the guard and then makes
`selectedAnswer.toLowerCase()` throw, reaching the catch branch.  JavaScript
string truthiness (`!s` is true for both `undefined` and `""`) is modelled by
`truthyStr`, and `String.prototype.includes` by `jsIncludes`.
-/

/-- A JavaScript runtime value in a position the TypeScript types declare as
`string` but `response.json()` never checks: either an actual string, or any
non-string value, remembered only by its JS truthiness (`0`, `false`, `null`
are falsy; numbers other than zero, objects and arrays are truthy). -/
inductive JsVal where
  | str (s : String)
  | nonString (truthy : Bool)
deriving DecidableEq, Repr

/-- Parsed question payload, mirroring the `QuestionData` type of the source
but with every field optional, since `response.json()` validates nothing. -/
structure QuestionData where
  img_src : Option String := none
  question : Option String := none
  hint : Option String := none
  responseType : Option String := none
  choices : Option (List JsVal) := none
  pointsRewarded : Option (List Int) := none
  url : Option String := none
  ageGroup : Option String := none
  Answer : Option String := none
deriving DecidableEq, Repr

/-- The seven `useState` hooks of the component, as one record. -/
structure AppState where
  hasPermission : Option Bool := none
  scanned : Bool := false
  showCamera : Bool := false
  questionData : Option QuestionData := none
  loading : Bool := false
  selectedAnswer : Option JsVal := none
  showResult : Bool := false
deriving DecidableEq, Repr

/-- Observable side effects performed by the handlers: an `Alert.alert`, a
`fetch` of a question URL (GET), or a POST of an answer.  The last constructor
exists so that the absence of any answer-submission request is expressible. -/
inductive Effect where
  | alert (title msg : String)
  | fetchReq (url : String)
  | postReq (url body : String)
deriving DecidableEq, Repr

/-- The screen modes of the specification's Session state machine. -/
inductive SessionMode where
  | Idle
  | Scanning
  | QuestionShown
  | Submitting
  | ResultShown
deriving DecidableEq, Repr

/-- JavaScript truthiness of an optional string: `undefined`/`null` and the
empty string are falsy. -/
def truthyStr : Option String → Bool
  | none => false
  | some s => !(s == "")

/-- JavaScript truthiness of a `JsVal`: a string is truthy iff non-empty; a
non-string value carries its own truthiness. -/
def truthyVal : JsVal → Bool
  | JsVal.str s => !(s == "")
  | JsVal.nonString t => t

/-- JavaScript truthiness of an optional `JsVal`: `undefined`/`null` is
falsy. -/
def truthyOptVal : Option JsVal → Bool
  | none => false
  | some v => truthyVal v

/-- The first list starts with the second-argument list matched against it:
helper for the substring test. -/
def leadsWith : List Char → List Char → Bool
  | [], _ => true
  | _ :: _, [] => false
  | p :: ps, c :: cs => (p == c) && leadsWith ps cs

/-- The pattern occurs as a contiguous run somewhere in the text. -/
def occursWithin : List Char → List Char → Bool
  | p, [] => leadsWith p []
  | p, c :: cs => leadsWith p (c :: cs) || occursWithin p cs

/-- `s.includes(pat)` of JavaScript. -/
def jsIncludes (s pat : String) : Bool :=
  occursWithin pat.toList s.toList

/-- `s.toLowerCase()` of JavaScript, on the character list of the string. -/
def jsToLower (s : String) : String :=
  String.mk (s.toList.map Char.toLower)

/-- The fixed answer-submission endpoint injected by `fetchQuestionData`. -/
def answerUrl : String :=
  "https://570d48f7-91ae-415a-8502-441c37cc0760.mock.pstmn.io/answer"

/-- The scan-payload recognition test of `handleBarCodeScanned` (line 60):
`data.includes('postman.com') || data.includes('http')`. -/
def recognizedPayload (data : String) : Bool :=
  jsIncludes data "postman.com" || jsIncludes data "http"

/-- Synchronous part of `fetchQuestionData` up to the `fetch` suspension:
`setLoading(true)` and the GET request itself. -/
def fetchQuestionStart (url : String) (st : AppState) : AppState × List Effect :=
  ({ st with loading := true }, [Effect.fetchReq url])

/-- Continuation of `fetchQuestionData` after the `fetch`/`json()` await:
on success (`some data`) store `{ ...data, url: answerUrl, Answer: 'blue' }`,
clear the selected answer and the result flag; on any thrown error (`none`)
show the error alert.  `finally` clears the loading flag on both paths. -/
def fetchQuestionComplete (outcome : Option QuestionData) (st : AppState) :
    AppState × List Effect :=
  match outcome with
  | some data =>
      ({ st with
          questionData := some { data with url := some answerUrl, Answer := some "blue" }
          selectedAnswer := none
          showResult := false
          loading := false }, [])
  | none =>
      ({ st with loading := false },
       [Effect.alert "Error" "Failed to fetch question data."])

/-- The whole `fetchQuestionData(url)` run, given the outcome of the network
round-trip. -/
def fetchQuestionData (url : String) (outcome : Option QuestionData)
    (st : AppState) : AppState × List Effect :=
  let s1 := fetchQuestionStart url st
  let s2 := fetchQuestionComplete outcome s1.1
  (s2.1, s1.2 ++ s2.2)

/-- `handleDeepLink`: fetch the question iff the incoming URL is truthy and
contains `postman.com`; otherwise do nothing at all (lines 36-40).  Only the
synchronous part of the triggered fetch is included. -/
def handleDeepLink (url : String) (st : AppState) : AppState × List Effect :=
  if (!(url == "")) && jsIncludes url "postman.com" then
    fetchQuestionStart url st
  else
    (st, [])

/-- `handleBarCodeScanned`: mark the code scanned, close the camera, then
either start fetching (recognized payload) or alert about an invalid code and
re-arm the scanner flag (lines 56-66). -/
def handleBarCodeScanned (data : String) (st : AppState) : AppState × List Effect :=
  let st1 := { st with scanned := true, showCamera := false }
  if recognizedPayload data then
    fetchQuestionStart data st1
  else
    ({ st1 with scanned := false },
     [Effect.alert "Invalid QR Code" "Please scan a valid scavenger hunt QR code"])

/-- `submitAnswer` (lines 87-110).  Guard: return immediately when
`selectedAnswer`, `questionData` or `questionData.url` is falsy.  When the
selection is a string, compare it case-insensitively against
`questionData.Answer` (`undefined` compares unequal to any string), alert
the verdict and set `showResult` only on a correct answer.  When the
selection is a truthy non-string (possible because the payload is never
validated), `selectedAnswer.toLowerCase()` throws and the catch branch
(lines 104-106) shows the submit-error alert.  The `finally` clears the
loading flag on every non-guard path.  No network request is made anywhere
in the function. -/
def submitAnswer (st : AppState) : AppState × List Effect :=
  match st.selectedAnswer, st.questionData with
  | some sel, some qd =>
      if !truthyVal sel || !truthyStr qd.url then
        (st, [])
      else
        match sel with
        | JsVal.str s =>
            let isCorrect : Bool :=
              match qd.Answer with
              | some a => jsToLower s == jsToLower a
              | none => false
            if isCorrect then
              ({ st with showResult := true, loading := false },
               [Effect.alert "Correct!" "Great job! You got it right!"])
            else
              ({ st with loading := false },
               [Effect.alert "Incorrect" "Try again!"])
        | JsVal.nonString _ =>
            ({ st with loading := false },
             [Effect.alert "Error" "Failed to submit answer."])
  | _, _ => (st, [])

/-- `resetForNextQuestion` (lines 112-117): clear the question, the selection,
the result flag and the scanned flag.  `showCamera` is not touched. -/
def resetForNextQuestion (st : AppState) : AppState :=
  { st with
      questionData := none
      selectedAnswer := none
      showResult := false
      scanned := false }

/-- `startScanning` (lines 119-122): open the camera view. -/
def startScanning (st : AppState) : AppState :=
  { st with showCamera := true, scanned := false }

/-- The Session mode of the specification, read off the render conditions:
the camera view renders when `showCamera`; the spinner when `loading`; the
welcome screen when no question is stored; the question screen otherwise,
with the result box shown when `showResult`. -/
def sessionMode (st : AppState) : SessionMode :=
  if st.showCamera then SessionMode.Scanning
  else if st.loading then SessionMode.Submitting
  else
    match st.questionData with
    | none => SessionMode.Idle
    | some _ =>
        if st.showResult then SessionMode.ResultShown else SessionMode.QuestionShown

/-- The submit button is rendered iff the question container is shown
(`questionData && !loading`, line 197) and a choice is selected (truthy
`selectedAnswer`, line 235). -/
def submitButtonVisible (st : AppState) : Bool :=
  st.questionData.isSome && !st.loading && truthyOptVal st.selectedAnswer

/-- A user tap on the submit button: it reaches `submitAnswer` only when the
button is rendered and not disabled (`disabled={loading}`, line 239). -/
def submitTrigger (st : AppState) : AppState × List Effect :=
  if submitButtonVisible st && !st.loading then submitAnswer st else (st, [])

/-- A question payload as stored after a fetch: the example question of the
specification, with the injected endpoint and expected answer. -/
def qdBlue : QuestionData :=
  { question := some "Pick a color"
    responseType := some "multipleChoice"
    choices := some [JsVal.str "red", JsVal.str "blue", JsVal.str "green"]
    url := some answerUrl
    Answer := some "blue" }

/-- The idle state after permission is granted. -/
def stIdle : AppState :=
  { hasPermission := some true }

/-- A question session with the wrong choice selected. -/
def stWrong : AppState :=
  { stIdle with questionData := some qdBlue, selectedAnswer := some (JsVal.str "red") }

/-- A question session with the correct choice selected. -/
def stRight : AppState :=
  { stIdle with questionData := some qdBlue, selectedAnswer := some (JsVal.str "blue") }

/-- A question session whose selected choice is a truthy non-string value
taken from an unvalidated payload (for example a number): submitting it
makes `toLowerCase` throw. -/
def stThrow : AppState :=
  { stIdle with questionData := some qdBlue, selectedAnswer := some (JsVal.nonString true) }

/-- A result screen: question stored and result shown. -/
def stResult : AppState :=
  { stIdle with questionData := some qdBlue, showResult := true }

/-- Scanning entered from the question screen: the previous question is still
stored while the camera is open. -/
def stScanQ : AppState :=
  { stIdle with questionData := some qdBlue, showCamera := true }

/-- A fetch in flight that was started from the result screen: the previous
question and its result flag are still stored. -/
def stStaleFetch : AppState :=
  { stIdle with
      questionData := some qdBlue
      showResult := true
      loading := true
      scanned := true }

/-- A server payload that does supply its own `url` and `Answer` values. -/
def serverQd : QuestionData :=
  { question := some "Pick a color"
    url := some "https://server.example/answer"
    Answer := some "red" }

/-- A decodable payload missing the required `question` prompt entirely. -/
def qdNoPrompt : QuestionData := {}

/-- A decodable payload declaring `multipleChoice` with an empty choice
list. -/
def qdEmptyMC : QuestionData :=
  { question := some "Pick a color"
    responseType := some "multipleChoice"
    choices := some [] }

/-! ### Helper lemmas -/

/-- The effect list of `submitAnswer` is always empty or one single alert —
a verdict alert, or the catch-branch submit-error alert: the function
contains no network call. -/
lemma submitAnswer_effects_cases (st : AppState) :
    (submitAnswer st).2 = []
    ∨ (submitAnswer st).2 = [Effect.alert "Correct!" "Great job! You got it right!"]
    ∨ (submitAnswer st).2 = [Effect.alert "Incorrect" "Try again!"]
    ∨ (submitAnswer st).2 = [Effect.alert "Error" "Failed to submit answer."] := by
  rcases hsel : st.selectedAnswer with _ | sel <;>
    rcases hqd : st.questionData with _ | qd <;>
      simp only [submitAnswer, hsel, hqd]
  · exact Or.inl trivial
  · exact Or.inl trivial
  · exact Or.inl trivial
  · rcases hg : (!truthyVal sel || !truthyStr qd.url) with _ | _
    · rcases sel with s | t
      · rcases ha : qd.Answer with _ | a
        · simp [hg, ha]
        · rcases hc : (jsToLower s == jsToLower a) with _ | _ <;> simp [hg, ha, hc]
      · simp [hg]
    · simp [hg]

/-! ### Claims -/

/-- Claim C8: when no choice is selected, or no question is stored, or the
stored question has no submission url, invoking submit is a complete no-op:
the state is unchanged and no effect is performed. -/
theorem submitAnswer_guard_noop (st : AppState)
    (h : st.selectedAnswer = none ∨ st.questionData = none ∨
      ∃ qd, st.questionData = some qd ∧ qd.url = none) :
    submitAnswer st = (st, []) := by
  rcases hsel : st.selectedAnswer with _ | sel
  · rcases hqd : st.questionData with _ | qd <;> simp [submitAnswer, hsel, hqd]
  · rcases hqd : st.questionData with _ | qd
    · simp [submitAnswer, hsel, hqd]
    · rcases h with h | h | ⟨qd2, hq2, hu⟩
      · rw [hsel] at h; cases h
      · rw [hqd] at h; cases h
      · rw [hqd] at hq2
        obtain rfl : qd = qd2 := Option.some.inj hq2
        simp [submitAnswer, hsel, hqd, truthyStr, hu]

/-- Claim C8 witness: in the idle state nothing is selected, so submit does
nothing. -/
theorem submitAnswer_guard_noop_witness :
    stIdle.selectedAnswer = none ∧ submitAnswer stIdle = (stIdle, []) :=
  ⟨rfl, submitAnswer_guard_noop stIdle (Or.inl rfl)⟩

/-- Claim C9: while the loading flag is set (the Submitting state), a submit
trigger from the UI is a no-op, because the question container is not
rendered while loading and the submit button is additionally disabled. -/
theorem submitTrigger_loading_noop (st : AppState) (h : st.loading = true) :
    submitTrigger st = (st, []) := by
  unfold submitTrigger submitButtonVisible
  rw [h]
  simp

/-- Claim C9 witness: a duplicate tap during an in-flight submit of the wrong
answer changes nothing. -/
theorem submitTrigger_loading_noop_witness :
    submitTrigger { stWrong with loading := true } =
      ({ stWrong with loading := true }, []) :=
  submitTrigger_loading_noop { stWrong with loading := true } rfl

/-- Claim C10: the deep-link entry point fetches iff the URL contains
`postman.com`, while the scanner entry point is looser: a URL containing
`http` but not `postman.com` is silently ignored by the deep-link handler
(no fetch, no notice) yet triggers a fetch when scanned. -/
theorem handleDeepLink_stricter (st : AppState) (url : String) :
    ((handleDeepLink url st).2 = [Effect.fetchReq url] ↔
      jsIncludes url "postman.com" = true)
    ∧ (jsIncludes url "postman.com" = false → handleDeepLink url st = (st, []))
    ∧ (jsIncludes url "http" = true → jsIncludes url "postman.com" = false →
        handleDeepLink url st = (st, [])
        ∧ (handleBarCodeScanned url st).2 = [Effect.fetchReq url]) := by
  have hcond : ((!(url == "")) && jsIncludes url "postman.com") =
      jsIncludes url "postman.com" := by
    rcases hu : (url == "") with _ | _
    · simp
    · have he : url = "" := by simpa using hu
      subst he
      decide
  refine ⟨?_, ?_, ?_⟩
  · unfold handleDeepLink
    rw [hcond]
    rcases hp : jsIncludes url "postman.com" with _ | _
    · simp [fetchQuestionStart]
    · simp [fetchQuestionStart]
  · intro hp
    unfold handleDeepLink
    rw [hcond, hp]
    simp
  · intro hh hp
    constructor
    · unfold handleDeepLink
      rw [hcond, hp]
      simp
    · simp [handleBarCodeScanned, recognizedPayload, hp, hh, fetchQuestionStart]

/-- Claim C10 witness: `http://example.com` is ignored by the deep-link
handler but fetched by the scan handler. -/
theorem handleDeepLink_stricter_witness :
    handleDeepLink "http://example.com" stIdle = (stIdle, [])
    ∧ (handleBarCodeScanned "http://example.com" stIdle).2 =
        [Effect.fetchReq "http://example.com"] :=
  (handleDeepLink_stricter stIdle "http://example.com").2.2 (by decide) (by decide)

/-- Claim C1 counterexample: submitting the wrong non-empty answer `red`
against expected answer `blue` yields the incorrect verdict, but the
selected choice is NOT cleared — it remains `red`, refuting the claim that
`selectedAnswer` is set back to unset. -/
theorem submit_incorrect_keeps_choice_counterexample :
    stWrong.questionData = some qdBlue
    ∧ qdBlue.Answer = some "blue"
    ∧ stWrong.selectedAnswer = some (JsVal.str "red")
    ∧ (submitAnswer stWrong).2 = [Effect.alert "Incorrect" "Try again!"]
    ∧ (submitAnswer stWrong).1.showResult = false
    ∧ (submitAnswer stWrong).1.selectedAnswer = some (JsVal.str "red") := by
  decide

/-- Claim C1 (amended): with a question, a non-empty selection, a truthy
submission url and a stored expected answer, a case-insensitive match yields
the correct verdict and moves to ResultShown; any other selection yields the
incorrect verdict and returns to QuestionShown with the question kept and
the selected choice retained, not cleared. -/
theorem submit_verdict (st : AppState) (qd : QuestionData) (sel a : String)
    (hq : st.questionData = some qd) (hsel : st.selectedAnswer = some (JsVal.str sel))
    (hne : sel ≠ "") (hurl : truthyStr qd.url = true) (ha : qd.Answer = some a)
    (hcam : st.showCamera = false) (hres : st.showResult = false) :
    (jsToLower sel = jsToLower a →
        submitAnswer st =
          ({ st with showResult := true, loading := false },
           [Effect.alert "Correct!" "Great job! You got it right!"])
        ∧ sessionMode (submitAnswer st).1 = SessionMode.ResultShown)
    ∧ (jsToLower sel ≠ jsToLower a →
        submitAnswer st =
          ({ st with loading := false }, [Effect.alert "Incorrect" "Try again!"])
        ∧ (submitAnswer st).1.selectedAnswer = some (JsVal.str sel)
        ∧ (submitAnswer st).1.questionData = some qd
        ∧ sessionMode (submitAnswer st).1 = SessionMode.QuestionShown) := by
  have hne' : (sel == "") = false := by simpa using hne
  have hsub : submitAnswer st =
      if jsToLower sel == jsToLower a then
        ({ st with showResult := true, loading := false },
         [Effect.alert "Correct!" "Great job! You got it right!"])
      else
        ({ st with loading := false }, [Effect.alert "Incorrect" "Try again!"]) := by
    simp only [submitAnswer, hsel, hq, ha, truthyVal, hne', hurl]
    simp
  constructor
  · intro hc
    have hcb : (jsToLower sel == jsToLower a) = true := by simpa using hc
    rw [hsub, hcb]
    refine ⟨by simp, ?_⟩
    simp [sessionMode, hcam, hq]
  · intro hc
    have hcb : (jsToLower sel == jsToLower a) = false := by simpa using hc
    rw [hsub, hcb]
    refine ⟨by simp, ?_, ?_, ?_⟩
    · simp [hsel]
    · simp [hq]
    · simp [sessionMode, hcam, hq, hres]

/-- Claim C1 witness: the amended incorrect branch at the concrete wrong
selection `red` against `blue`. -/
theorem submit_verdict_witness :
    submitAnswer stWrong =
      ({ stWrong with loading := false }, [Effect.alert "Incorrect" "Try again!"])
    ∧ (submitAnswer stWrong).1.selectedAnswer = some (JsVal.str "red")
    ∧ (submitAnswer stWrong).1.questionData = some qdBlue
    ∧ sessionMode (submitAnswer stWrong).1 = SessionMode.QuestionShown :=
  (submit_verdict stWrong qdBlue "red" "blue" rfl rfl (by decide) (by decide) rfl
    rfl rfl).2 (by decide)

/-- Claim C2 counterexample: a server payload that supplies both its own
`url` and its own `Answer` has both replaced by the fixed stub values after
the fetch, refuting the claim that server-supplied values are preserved. -/
theorem fetch_preserves_server_counterexample :
    serverQd.url = some "https://server.example/answer"
    ∧ serverQd.Answer = some "red"
    ∧ (fetchQuestionComplete (some serverQd) stIdle).1.questionData =
        some { serverQd with url := some answerUrl, Answer := some "blue" }
    ∧ answerUrl ≠ "https://server.example/answer"
    ∧ "blue" ≠ "red" := by
  decide

/-- Claim C2 (amended): the client unconditionally overwrites the payload's
`url` and `Answer` fields with the fixed endpoint and the fixed expected
answer, whether or not the service supplied them. -/
theorem fetch_always_overrides (data : QuestionData) (st : AppState) :
    (fetchQuestionComplete (some data) st).1.questionData =
      some { data with url := some answerUrl, Answer := some "blue" } :=
  rfl

/-- Claim C3 counterexample: a submit with a selected choice and a stored
submission endpoint produces exactly one alert effect and no request at all,
refuting the claim that a POST is issued to `questionData.url`. -/
theorem submit_no_post_counterexample :
    stRight.selectedAnswer = some (JsVal.str "blue")
    ∧ (stRight.questionData = some qdBlue ∧ qdBlue.url = some answerUrl)
    ∧ (submitAnswer stRight).2 =
        [Effect.alert "Correct!" "Great job! You got it right!"] := by
  decide

/-- Claim C3 (amended): submitting never issues any network request; the
only effects ever produced are local alerts — a verdict alert, or the
catch-branch submit-error alert when the comparison throws — so the
correctness verdict is computed entirely client-side. -/
theorem submit_issues_no_request (st : AppState) :
    (submitAnswer st).2 = []
    ∨ (submitAnswer st).2 = [Effect.alert "Correct!" "Great job! You got it right!"]
    ∨ (submitAnswer st).2 = [Effect.alert "Incorrect" "Try again!"]
    ∨ (submitAnswer st).2 = [Effect.alert "Error" "Failed to submit answer."] :=
  submitAnswer_effects_cases st

/-- Claim C4 counterexample: a decodable payload with no `question` field,
and one declaring `multipleChoice` with an empty choice list, are both
stored as the current question with no failure surfaced, refuting the
MalformedPayload failure path. -/
theorem fetch_no_validation_counterexample :
    qdNoPrompt.question = none
    ∧ (fetchQuestionComplete (some qdNoPrompt) stIdle).1.questionData =
        some { qdNoPrompt with url := some answerUrl, Answer := some "blue" }
    ∧ (fetchQuestionComplete (some qdNoPrompt) stIdle).2 = []
    ∧ (qdEmptyMC.responseType = some "multipleChoice" ∧ qdEmptyMC.choices = some [])
    ∧ (fetchQuestionComplete (some qdEmptyMC) stIdle).1.questionData =
        some { qdEmptyMC with url := some answerUrl, Answer := some "blue" }
    ∧ (fetchQuestionComplete (some qdEmptyMC) stIdle).2 = [] := by
  decide

/-- Claim C4 (amended): the fetch performs no shape validation at all — any
decodable payload is stored as the question, missing prompt or empty choices
included; only a transport or JSON-decode failure takes the failure path,
which surfaces one error alert, stores nothing, and is not retried. -/
theorem fetch_outcome_unvalidated (st : AppState) :
    (∀ data : QuestionData,
        fetchQuestionComplete (some data) st =
          ({ st with
              questionData :=
                some { data with url := some answerUrl, Answer := some "blue" }
              selectedAnswer := none
              showResult := false
              loading := false }, []))
    ∧ fetchQuestionComplete none st =
        ({ st with loading := false },
         [Effect.alert "Error" "Failed to fetch question data."]) :=
  ⟨fun _ => rfl, rfl⟩

/-- Claim C5 counterexample: from a ResultShown session, the next-question
reset lands in Idle — the camera is not reopened — refuting the claim that
the session re-enters Scanning. -/
theorem reset_not_scanning_counterexample :
    sessionMode stResult = SessionMode.ResultShown
    ∧ sessionMode (resetForNextQuestion stResult) = SessionMode.Idle
    ∧ SessionMode.Idle ≠ SessionMode.Scanning := by
  decide

/-- Claim C5 (amended): from any ResultShown session, the next-question
reset clears the question, the selection, the result flag and the scanned
flag, and returns the session to Idle — the scanner is not reactivated; the
user must start the next scan explicitly. -/
theorem reset_clears_to_idle (st : AppState)
    (h : sessionMode st = SessionMode.ResultShown) :
    (resetForNextQuestion st).questionData = none
    ∧ (resetForNextQuestion st).selectedAnswer = none
    ∧ (resetForNextQuestion st).showResult = false
    ∧ (resetForNextQuestion st).scanned = false
    ∧ sessionMode (resetForNextQuestion st) = SessionMode.Idle := by
  rcases hcam : st.showCamera with _ | _
  · rcases hload : st.loading with _ | _
    · refine ⟨rfl, rfl, rfl, rfl, ?_⟩
      simp [resetForNextQuestion, sessionMode, hcam, hload]
    · simp [sessionMode, hcam, hload] at h
  · simp [sessionMode, hcam] at h

/-- Claim C5 witness: the concrete ResultShown session with the example
question. -/
theorem reset_clears_to_idle_witness :
    (resetForNextQuestion stResult).questionData = none
    ∧ (resetForNextQuestion stResult).selectedAnswer = none
    ∧ (resetForNextQuestion stResult).showResult = false
    ∧ (resetForNextQuestion stResult).scanned = false
    ∧ sessionMode (resetForNextQuestion stResult) = SessionMode.Idle :=
  reset_clears_to_idle stResult (by decide)

/-- Claim C6 counterexample: an unrecognizable payload scanned while a
previous question is still stored surfaces the invalid-code notice but
lands back on QuestionShown, not Idle, refuting the Scanning-to-Idle part
of the claim. -/
theorem scan_invalid_idle_counterexample :
    stScanQ.showCamera = true
    ∧ recognizedPayload "hello" = false
    ∧ (handleBarCodeScanned "hello" stScanQ).2 =
        [Effect.alert "Invalid QR Code" "Please scan a valid scavenger hunt QR code"]
    ∧ sessionMode (handleBarCodeScanned "hello" stScanQ).1 = SessionMode.QuestionShown
    ∧ SessionMode.QuestionShown ≠ SessionMode.Idle := by
  decide

/-- Claim C6 (amended): an unrecognized payload closes the camera, surfaces
the invalid-code notice and never fetches, landing in Idle when no question
was stored (otherwise back on the stored question screen); and a scan
triggers the fetch exactly when the payload contains `http` or the known
host token `postman.com`. -/
theorem scan_invalid_behavior (st : AppState) (data : String)
    (h : recognizedPayload data = false) :
    handleBarCodeScanned data st =
      ({ st with scanned := false, showCamera := false },
       [Effect.alert "Invalid QR Code" "Please scan a valid scavenger hunt QR code"])
    ∧ (st.questionData = none → st.loading = false →
        sessionMode (handleBarCodeScanned data st).1 = SessionMode.Idle)
    ∧ (∀ d2 : String, ∀ st2 : AppState,
        (handleBarCodeScanned d2 st2).2 = [Effect.fetchReq d2] ↔
          recognizedPayload d2 = true) := by
  refine ⟨?_, ?_, ?_⟩
  · simp [handleBarCodeScanned, h]
  · intro hq hl
    simp [handleBarCodeScanned, h, sessionMode, hq, hl]
  · intro d2 st2
    rcases hr : recognizedPayload d2 with _ | _
    · simp [handleBarCodeScanned, hr, fetchQuestionStart]
    · simp [handleBarCodeScanned, hr, fetchQuestionStart]

/-- Claim C6 witness: scanning the unrecognizable payload `hello` from the
idle state. -/
theorem scan_invalid_behavior_witness :
    handleBarCodeScanned "hello" stIdle =
      (stIdle, [Effect.alert "Invalid QR Code" "Please scan a valid scavenger hunt QR code"])
    ∧ sessionMode (handleBarCodeScanned "hello" stIdle).1 = SessionMode.Idle := by
  have h := scan_invalid_behavior stIdle "hello" (by decide)
  exact ⟨h.1.trans (by decide), h.2.1 rfl rfl⟩

/-- Claim C7 counterexample: a fetch failure during a fetch started from the
result screen surfaces the error notice and clears the loading flag, but the
session lands back on ResultShown — neither Idle nor QuestionShown. -/
theorem fetch_error_mode_counterexample :
    (fetchQuestionComplete none stStaleFetch).2 =
      [Effect.alert "Error" "Failed to fetch question data."]
    ∧ (fetchQuestionComplete none stStaleFetch).1.loading = false
    ∧ sessionMode (fetchQuestionComplete none stStaleFetch).1 = SessionMode.ResultShown
    ∧ SessionMode.ResultShown ≠ SessionMode.Idle
    ∧ SessionMode.ResultShown ≠ SessionMode.QuestionShown := by
  decide

/-- Claim C7 (amended): every fetch or submit error only clears the loading
flag and surfaces one dismissable notice, leaving every other session field
— stored question included — untouched, so the session lands on the prior
screen, never stuck in Submitting: Idle or QuestionShown in the basic
flows, but also ResultShown (a fetch started from the result screen) or
Scanning (a deep-link fetch failing while the camera is open).  The submit
error is the catch branch taken when a truthy non-string selection from an
unvalidated payload makes the comparison throw. -/
theorem fetch_error_safe (st : AppState) :
    (fetchQuestionComplete none st).1 = { st with loading := false }
    ∧ (fetchQuestionComplete none st).2 =
        [Effect.alert "Error" "Failed to fetch question data."]
    ∧ (sessionMode (fetchQuestionComplete none st).1 = SessionMode.Idle
       ∨ sessionMode (fetchQuestionComplete none st).1 = SessionMode.QuestionShown
       ∨ sessionMode (fetchQuestionComplete none st).1 = SessionMode.ResultShown
       ∨ sessionMode (fetchQuestionComplete none st).1 = SessionMode.Scanning)
    ∧ (∀ qd : QuestionData, st.selectedAnswer = some (JsVal.nonString true) →
        st.questionData = some qd → truthyStr qd.url = true →
        submitAnswer st =
          ({ st with loading := false },
           [Effect.alert "Error" "Failed to submit answer."])) := by
  refine ⟨rfl, rfl, ?_, ?_⟩
  · rcases hcam : st.showCamera with _ | _
    · rcases hq : st.questionData with _ | qd
      · exact Or.inl (by simp [sessionMode, fetchQuestionComplete, hcam, hq])
      · rcases hr : st.showResult with _ | _
        · exact Or.inr (Or.inl
            (by simp [sessionMode, fetchQuestionComplete, hcam, hq, hr]))
        · exact Or.inr (Or.inr (Or.inl
            (by simp [sessionMode, fetchQuestionComplete, hcam, hq, hr])))
    · exact Or.inr (Or.inr (Or.inr
        (by simp [sessionMode, fetchQuestionComplete, hcam])))
  · intro qd hsel hq hurl
    simp [submitAnswer, hsel, hq, truthyVal, hurl]

/-- Claim C7 witness: a failing fetch from the idle state restores the idle
state, and a submit whose non-string selection throws surfaces the submit
error with the loading flag cleared. -/
theorem fetch_error_safe_witness :
    (fetchQuestionComplete none { stIdle with loading := true }).1 = stIdle
    ∧ submitAnswer stThrow =
        ({ stThrow with loading := false },
         [Effect.alert "Error" "Failed to submit answer."]) := by
  refine ⟨(fetch_error_safe { stIdle with loading := true }).1.trans (by decide), ?_⟩
  exact (fetch_error_safe stThrow).2.2.2 qdBlue rfl rfl (by decide)
